import Mathlib

/-!
Shallow embedding of the Pastorate Hub API backend (`src/main.py`):
a FastAPI application serving a static catalog of church locations
with demo leadership/news/gallery content, plus a diagnostic endpoint
probing an optional database dependency.
-/

set_option maxHeartbeats 1000000

namespace PastorateHub

/-- `class Leader(BaseModel)` from main.py: name, role, optional photo URL. -/
structure Leader where
  name : String
  role : String
  photo : Option String := none
deriving DecidableEq, Repr

/-- `class NewsItem(BaseModel)` from main.py. -/
structure NewsItem where
  id : Int
  title : String
  excerpt : String
  date : String
  url : String
deriving DecidableEq, Repr

/-- `class GalleryImage(BaseModel)` from main.py. -/
structure GalleryImage where
  src : String
  alt : String
deriving DecidableEq, Repr

/-- `class Location(BaseModel)` from main.py. -/
structure Location where
  slug : String
  name : String
  address : String
  service_times : List String
  phone : Option String := none
  email : Option String := none
  hero_tagline : Option String := none
deriving DecidableEq, Repr

/-- `class LocationDetail(BaseModel)` from main.py. -/
structure LocationDetail where
  location : Location
  leadership : List Leader
  news : List NewsItem
  gallery : List GalleryImage
deriving DecidableEq, Repr

/-- First element of the `LOCATIONS` catalog in main.py. -/
def central_campus : Location :=
  { slug := "central-campus"
    name := "Central Congregation"
    address := "100 Main St, Cityville"
    service_times := ["Sundays 9:00 AM", "Sundays 11:00 AM"]
    phone := some "(555) 123-0001"
    email := some "central@example.org"
    hero_tagline := some "A welcoming community in the heart of the city." }

/-- `LOCATIONS: List[Location]` from main.py: the demo catalog. -/
def LOCATIONS : List Location :=
  [ central_campus,
    { slug := "north-campus", name := "North Congregation", address := "200 North Rd",
      service_times := ["Sundays 10:00 AM"], phone := some "(555) 123-0002",
      email := some "north@example.org", hero_tagline := some "Growing together in faith." },
    { slug := "south-campus", name := "South Congregation", address := "300 South Ave",
      service_times := ["Sundays 10:30 AM"], phone := some "(555) 123-0003",
      email := some "south@example.org", hero_tagline := some "Serving with joy." },
    { slug := "east-campus", name := "East Congregation", address := "400 East Blvd",
      service_times := ["Sundays 9:30 AM"], phone := some "(555) 123-0004",
      email := some "east@example.org", hero_tagline := some "Hope for every home." },
    { slug := "west-campus", name := "West Congregation", address := "500 West Way",
      service_times := ["Sundays 11:15 AM"], phone := some "(555) 123-0005",
      email := some "west@example.org", hero_tagline := some "Rooted and reaching." },
    { slug := "riverside-campus", name := "Riverside Congregation", address := "600 River Rd",
      service_times := ["Sundays 9:00 AM"], phone := some "(555) 123-0006",
      email := some "riverside@example.org", hero_tagline := some "Life by the water." },
    { slug := "hillside-campus", name := "Hillside Congregation", address := "700 Hill St",
      service_times := ["Sundays 10:00 AM"], phone := some "(555) 123-0007",
      email := some "hillside@example.org", hero_tagline := some "Lifted by grace." } ]

/-- `DEMO_LEADERS` from main.py. -/
def DEMO_LEADERS : List Leader :=
  [ { name := "Alex Morgan", role := "Lead Pastor",
      photo := some "https://images.unsplash.com/photo-1544006659-f0b21884ce1d?q=80&w=800&auto=format&fit=crop" },
    { name := "Jordan Lee", role := "Associate Pastor",
      photo := some "https://images.unsplash.com/photo-1547425260-76bcadfb4f2c?q=80&w=800&auto=format&fit=crop" },
    { name := "Taylor Kim", role := "Worship Director",
      photo := some "https://images.unsplash.com/photo-1527980965255-d3b416303d12?q=80&w=800&auto=format&fit=crop" },
    { name := "Riley Chen", role := "Next Gen Lead",
      photo := some "https://images.unsplash.com/photo-1544006658-85f8d80b2983?q=80&w=800&auto=format&fit=crop" } ]

/-- `DEMO_NEWS` from main.py. -/
def DEMO_NEWS : List NewsItem :=
  [ { id := 1, title := "Pastorate Vision Night",
      excerpt := "Join us as we share the vision for the coming year.",
      date := "2025-01-15", url := "https://example.org/news/vision-night" },
    { id := 2, title := "Community Serve Day",
      excerpt := "City-wide outreach across all locations.",
      date := "2025-02-01", url := "https://example.org/news/serve-day" } ]

/-- `DEMO_GALLERY` from main.py. -/
def DEMO_GALLERY : List GalleryImage :=
  [ { src := "https://images.unsplash.com/photo-1488521787991-ed7bbaae773c?q=80&w=1200&auto=format&fit=crop",
      alt := "Gathering" },
    { src := "https://images.unsplash.com/photo-1520975682031-a3ee3e3c7b80?q=80&w=1200&auto=format&fit=crop",
      alt := "Worship" },
    { src := "https://images.unsplash.com/photo-1470225620780-dba8ba36b745?q=80&w=1200&auto=format&fit=crop",
      alt := "Community" } ]

/-- The `HTTPException` raised by `get_location` on an unknown slug. -/
structure HTTPError where
  status_code : Nat
  detail : String
deriving DecidableEq, Repr

/-- Fixed greeting payload shape `{"message": ...}` of `read_root` and `hello`. -/
structure Message where
  message : String
deriving DecidableEq, Repr

/-- `read_root` route handler (`GET /`). -/
def read_root : Message := { message := "Hello from FastAPI Backend!" }

/-- `hello` route handler (`GET /api/hello`). -/
def hello : Message := { message := "Hello from the backend API!" }

/-- `list_locations` route handler (`GET /api/locations`): returns `LOCATIONS`. -/
def list_locations (_ : Unit) : List Location := LOCATIONS

/-- `get_location` route handler (`GET /api/location/{slug}`):
`next((l for l in LOCATIONS if l.slug == slug), None)`, raising a 404
`HTTPException` when no catalog entry matches, otherwise returning a
`LocationDetail` combining the match with the demo collections. -/
def get_location (slug : String) : Except HTTPError LocationDetail :=
  match LOCATIONS.find? (fun l => l.slug == slug) with
  | none => Except.error { status_code := 404, detail := "Location not found" }
  | some loc =>
      Except.ok { location := loc, leadership := DEMO_LEADERS,
                  news := DEMO_NEWS, gallery := DEMO_GALLERY }

deriving instance DecidableEq for Except

/-- The optional `db` handle of the `database` module, as `test_database` uses it:
an object that may or may not carry a `name` attribute and whose
`list_collection_names()` call either yields a list of names or raises
an exception with a message. -/
structure DbHandle where
  hasNameAttr : Bool
  name : String
  list_collection_names : Except String (List String)
deriving DecidableEq, Repr

/-- The possible outcomes of `from database import db` in `test_database`:
an `ImportError`, some other exception (with its message), or success
yielding a handle that may be `None`. -/
inductive DbImport where
  | importError : DbImport
  | raised : String → DbImport
  | ok : Option DbHandle → DbImport
deriving DecidableEq, Repr

/-- The environment `test_database` runs in: the outcome of importing the
optional database module, and the values (if present) of the
`DATABASE_URL` and `DATABASE_NAME` environment variables. -/
structure Env where
  dbImport : DbImport
  databaseUrl : Option String
  databaseName : Option String
deriving DecidableEq, Repr

/-- Python truthiness of an `os.getenv` result: `None` and `""` are falsy. -/
def envTruthy : Option String → Bool
  | none => false
  | some s => s ≠ ""

/-- The response dict built by `test_database`. The `database_url` and
`database_name` entries start as `None`, hence `Option String`. -/
structure TestResponse where
  backend : String
  database : String
  database_url : Option String
  database_name : Option String
  connection_status : String
  collections : List String
deriving DecidableEq, Repr

/-- `test_database` route handler (`GET /test`), translated statement by
statement from main.py: every exception path is represented in `Env`, and
each branch performs the same dict updates as the Python code, including
the 50-character truncation `str(e)[:50]` and the final unconditional
overwrite of `database_url` / `database_name` from the environment. -/
def test_database (env : Env) : TestResponse :=
  let response : TestResponse :=
    { backend := "✅ Running"
      database := "❌ Not Available"
      database_url := none
      database_name := none
      connection_status := "Not Connected"
      collections := [] }
  let response : TestResponse :=
    match env.dbImport with
    | DbImport.ok (some db) =>
        let response :=
          { response with
            database := "✅ Available"
            database_url := some "✅ Configured"
            database_name := some (if db.hasNameAttr then db.name else "✅ Connected")
            connection_status := "Connected" }
        match db.list_collection_names with
        | Except.ok collections =>
            { response with
              collections := collections.take 10
              database := "✅ Connected & Working" }
        | Except.error e =>
            { response with database := "⚠️  Connected but Error: " ++ e.take 50 }
    | DbImport.ok none =>
        { response with database := "⚠️  Available but not initialized" }
    | DbImport.importError =>
        { response with database := "❌ Database module not found (run enable-database first)" }
    | DbImport.raised e =>
        { response with database := "❌ Error: " ++ e.take 50 }
  { response with
    database_url := some (if envTruthy env.databaseUrl then "✅ Set" else "❌ Not Set")
    database_name := some (if envTruthy env.databaseName then "✅ Set" else "❌ Not Set") }

/-! State-passing view of the handlers. The Python handlers read the
module-level constants and perform no assignment to them; making the shared
data an explicit state exposes that as a provable fact. -/

/-- The module-level data the route handlers share. -/
structure AppState where
  locations : List Location
  demo_leaders : List Leader
  demo_news : List NewsItem
  demo_gallery : List GalleryImage
deriving DecidableEq, Repr

/-- The module-level state at startup. -/
def initState : AppState :=
  { locations := LOCATIONS, demo_leaders := DEMO_LEADERS,
    demo_news := DEMO_NEWS, demo_gallery := DEMO_GALLERY }

/-- `read_root` with the module state explicit (no statement writes it). -/
def read_rootS (st : AppState) : Message × AppState := (read_root, st)

/-- `hello` with the module state explicit (no statement writes it). -/
def helloS (st : AppState) : Message × AppState := (hello, st)

/-- `list_locations` with the module state explicit: returns
`st.locations` and performs no write to the state. -/
def list_locationsS (st : AppState) : List Location × AppState :=
  (st.locations, st)

/-- `get_location` with the module state explicit: the lookup and the
`LocationDetail` construction read `st` and perform no write to it. -/
def get_locationS (slug : String) (st : AppState) :
    Except HTTPError LocationDetail × AppState :=
  (match st.locations.find? (fun l => l.slug == slug) with
   | none => Except.error { status_code := 404, detail := "Location not found" }
   | some loc =>
       Except.ok { location := loc, leadership := st.demo_leaders,
                   news := st.demo_news, gallery := st.demo_gallery }, st)

/-- `test_database` with the module state explicit: it only builds a local
`response` dict and performs no write to the module state. -/
def test_databaseS (env : Env) (st : AppState) : TestResponse × AppState :=
  (test_database env, st)

/-! Theorems -/

/-- Helper: a slug present in the catalog makes the handler's `find?` succeed,
and the found record carries that slug. -/
theorem find_location_of_mem (s : String)
    (h : ∃ loc ∈ LOCATIONS, loc.slug = s) :
    ∃ loc, LOCATIONS.find? (fun l => l.slug == s) = some loc ∧ loc.slug = s := by
  obtain ⟨loc, hmem, hslug⟩ := h
  have hsome : (LOCATIONS.find? (fun l => l.slug == s)).isSome := by
    rw [List.find?_isSome]
    exact ⟨loc, hmem, by simpa using hslug⟩
  obtain ⟨loc', hloc'⟩ := Option.isSome_iff_exists.mp hsome
  exact ⟨loc', hloc', by simpa using List.find?_some hloc'⟩

/-- C1: for every slug equal to the slug of some `Location` in the catalog,
`get_location` succeeds with a `LocationDetail` whose `location.slug`
equals the input slug. -/
theorem get_location_known_slug (s : String)
    (h : ∃ loc ∈ LOCATIONS, loc.slug = s) :
    ∃ d, get_location s = Except.ok d ∧ d.location.slug = s := by
  obtain ⟨loc, hfind, hslug⟩ := find_location_of_mem s h
  refine ⟨{ location := loc, leadership := DEMO_LEADERS,
            news := DEMO_NEWS, gallery := DEMO_GALLERY }, ?_, hslug⟩
  unfold get_location
  rw [hfind]

/-- Witness for C1 at the concrete catalog slug `"central-campus"`. -/
theorem get_location_known_slug_witness :
    ∃ d, get_location "central-campus" = Except.ok d ∧
      d.location.slug = "central-campus" :=
  get_location_known_slug "central-campus"
    ⟨central_campus, by simp [LOCATIONS], rfl⟩

/-- C2: for every slug matching no `Location` in the catalog, `get_location`
fails with status code 404 and the error detail `"Location not found"`,
returning no `LocationDetail` payload. -/
theorem get_location_unknown_slug (s : String)
    (h : ∀ loc ∈ LOCATIONS, loc.slug ≠ s) :
    get_location s =
      Except.error { status_code := 404, detail := "Location not found" } := by
  unfold get_location
  have hnone : LOCATIONS.find? (fun l => l.slug == s) = none := by
    rw [List.find?_eq_none]
    intro x hx
    simpa using h x hx
  rw [hnone]

/-- Witness for C2 at the concrete unknown slug `"does-not-exist"`. -/
theorem get_location_unknown_slug_witness :
    get_location "does-not-exist" =
      Except.error { status_code := 404, detail := "Location not found" } :=
  get_location_unknown_slug "does-not-exist" (by decide)

/-- C3: `list_locations` returns exactly the catalog `LOCATIONS`, the same
value on every call, and (in the state-passing view) modifies no state. -/
theorem list_locations_returns_catalog :
    (∀ u : Unit, list_locations u = LOCATIONS) ∧
    (∀ u v : Unit, list_locations u = list_locations v) ∧
    (∀ st : AppState, list_locationsS st = (st.locations, st)) :=
  ⟨fun _ => rfl, fun _ _ => rfl, fun _ => rfl⟩

/-- C4: for any two slugs both present in the catalog, the two
`LocationDetail` results have equal leadership, news and gallery arrays
(the fixed demo collections). -/
theorem get_location_same_collections (s1 s2 : String)
    (h1 : ∃ loc ∈ LOCATIONS, loc.slug = s1)
    (h2 : ∃ loc ∈ LOCATIONS, loc.slug = s2) :
    ∃ d1 d2, get_location s1 = Except.ok d1 ∧ get_location s2 = Except.ok d2 ∧
      d1.leadership = d2.leadership ∧ d1.news = d2.news ∧
      d1.gallery = d2.gallery := by
  obtain ⟨loc1, hfind1, -⟩ := find_location_of_mem s1 h1
  obtain ⟨loc2, hfind2, -⟩ := find_location_of_mem s2 h2
  refine ⟨{ location := loc1, leadership := DEMO_LEADERS,
            news := DEMO_NEWS, gallery := DEMO_GALLERY },
          { location := loc2, leadership := DEMO_LEADERS,
            news := DEMO_NEWS, gallery := DEMO_GALLERY }, ?_, ?_, rfl, rfl, rfl⟩
  · unfold get_location; rw [hfind1]
  · unfold get_location; rw [hfind2]

/-- Witness for C4 at the concrete catalog slugs `"central-campus"` and
`"north-campus"`. -/
theorem get_location_same_collections_witness :
    ∃ d1 d2, get_location "central-campus" = Except.ok d1 ∧
      get_location "north-campus" = Except.ok d2 ∧
      d1.leadership = d2.leadership ∧ d1.news = d2.news ∧
      d1.gallery = d2.gallery :=
  get_location_same_collections "central-campus" "north-campus"
    ⟨central_campus, by simp [LOCATIONS], rfl⟩
    ⟨LOCATIONS.get ⟨1, by simp [LOCATIONS]⟩, by simp [LOCATIONS], rfl⟩

/-- C7: `get_location "central-campus"` succeeds and returns a detail whose
location name is `"Central Congregation"`, with 4 leadership entries and
2 news entries. -/
theorem get_location_central_campus :
    ∃ d, get_location "central-campus" = Except.ok d ∧
      d.location.name = "Central Congregation" ∧
      d.leadership.length = 4 ∧ d.news.length = 2 :=
  ⟨{ location := central_campus, leadership := DEMO_LEADERS,
     news := DEMO_NEWS, gallery := DEMO_GALLERY }, rfl, rfl, rfl, rfl⟩

/-- C8: slugs are unique across the catalog, and no operation (the greeting
handlers, `list_locations`, `get_location`, `test_database`) modifies the
module state holding the catalog. -/
theorem catalog_slugs_unique_and_constant :
    (LOCATIONS.map Location.slug).Nodup ∧
    (∀ st : AppState, (read_rootS st).2 = st) ∧
    (∀ st : AppState, (helloS st).2 = st) ∧
    (∀ st : AppState, (list_locationsS st).2 = st) ∧
    (∀ (slug : String) (st : AppState), (get_locationS slug st).2 = st) ∧
    (∀ (env : Env) (st : AppState), (test_databaseS env st).2 = st) :=
  ⟨by decide, fun _ => rfl, fun _ => rfl, fun _ => rfl,
   fun _ _ => rfl, fun _ _ => rfl⟩

/-- C5: `test_database` is total over every environment (module absent,
handle uninitialized, or query failing) — it always returns a status
object whose `backend` field reports liveness and whose `database` field
is one of the descriptive status strings, never a propagated error. -/
theorem test_database_never_raises (env : Env) :
    (test_database env).backend = "✅ Running" ∧
    ((test_database env).database = "✅ Connected & Working" ∨
     (test_database env).database = "⚠️  Available but not initialized" ∨
     (test_database env).database =
       "❌ Database module not found (run enable-database first)" ∨
     (∃ t, (test_database env).database = "⚠️  Connected but Error: " ++ t) ∨
     (∃ t, (test_database env).database = "❌ Error: " ++ t)) := by
  obtain ⟨imp, u, n⟩ := env
  cases imp with
  | importError => exact ⟨rfl, Or.inr (Or.inr (Or.inl rfl))⟩
  | raised e => exact ⟨rfl, Or.inr (Or.inr (Or.inr (Or.inr ⟨e.take 50, rfl⟩)))⟩
  | ok odb =>
    cases odb with
    | none => exact ⟨rfl, Or.inr (Or.inl rfl)⟩
    | some db =>
      obtain ⟨hn, nm, lcn⟩ := db
      cases lcn with
      | ok cs => exact ⟨rfl, Or.inl rfl⟩
      | error e => exact ⟨rfl, Or.inr (Or.inr (Or.inr (Or.inl ⟨e.take 50, rfl⟩)))⟩

/-- C6: the `collections` field of every `test_database` response holds at
most 10 collection names, however many the live connection enumerates. -/
theorem test_database_collections_le_ten (env : Env) :
    (test_database env).collections.length ≤ 10 := by
  obtain ⟨imp, u, n⟩ := env
  cases imp with
  | importError => exact Nat.zero_le 10
  | raised e => exact Nat.zero_le 10
  | ok odb =>
    cases odb with
    | none => exact Nat.zero_le 10
    | some db =>
      obtain ⟨hn, nm, lcn⟩ := db
      cases lcn with
      | ok cs => exact List.length_take_le 10 cs
      | error e => exact Nat.zero_le 10

/-- An environment where `DATABASE_URL` is present but set to the empty
string (falsy in Python), with no database module. -/
def envEmptyUrl : Env :=
  { dbImport := DbImport.importError, databaseUrl := some "", databaseName := none }

/-- An environment where `DATABASE_URL` is present and non-empty, with no
database module. -/
def envRealUrl : Env :=
  { dbImport := DbImport.importError, databaseUrl := some "mongodb://h",
    databaseName := none }

/-- Counterexample to C9 as stated: two environments in which `DATABASE_URL`
is equally *present* (both `some _`) yield different `database_url` fields,
because the code tests Python truthiness, not presence — an empty-string
value is reported `"❌ Not Set"`. -/
theorem test_database_url_not_presence_only :
    envEmptyUrl.databaseUrl.isSome = true ∧
    envRealUrl.databaseUrl.isSome = true ∧
    (test_database envEmptyUrl).database_url = some "❌ Not Set" ∧
    (test_database envRealUrl).database_url = some "✅ Set" :=
  ⟨rfl, rfl, rfl, rfl⟩

/-- C9 (amended): `database_url` and `database_name` in every
`test_database` response depend only on the truthiness (present and
non-empty) of the `DATABASE_URL` / `DATABASE_NAME` environment variables,
take only the values `"✅ Set"` / `"❌ Not Set"`, and the intermediate
values assigned when a database handle is found never survive to the
returned object. -/
theorem test_database_env_fields (env : Env) :
    (test_database env).database_url =
      some (if envTruthy env.databaseUrl then "✅ Set" else "❌ Not Set") ∧
    (test_database env).database_name =
      some (if envTruthy env.databaseName then "✅ Set" else "❌ Not Set") ∧
    ((test_database env).database_url = some "✅ Set" ∨
     (test_database env).database_url = some "❌ Not Set") ∧
    ((test_database env).database_name = some "✅ Set" ∨
     (test_database env).database_name = some "❌ Not Set") := by
  obtain ⟨imp, u, n⟩ := env
  have hurl : (test_database ⟨imp, u, n⟩).database_url =
      some (if envTruthy u then "✅ Set" else "❌ Not Set") := by
    cases imp with
    | importError => rfl
    | raised e => rfl
    | ok odb =>
      cases odb with
      | none => rfl
      | some db =>
        obtain ⟨hn, nm, lcn⟩ := db
        cases lcn with
        | ok cs => rfl
        | error e => rfl
  have hname : (test_database ⟨imp, u, n⟩).database_name =
      some (if envTruthy n then "✅ Set" else "❌ Not Set") := by
    cases imp with
    | importError => rfl
    | raised e => rfl
    | ok odb =>
      cases odb with
      | none => rfl
      | some db =>
        obtain ⟨hn, nm, lcn⟩ := db
        cases lcn with
        | ok cs => rfl
        | error e => rfl
  refine ⟨hurl, hname, ?_, ?_⟩
  · rw [hurl]
    cases envTruthy u <;> simp
  · rw [hname]
    cases envTruthy n <;> simp

/-- Helper: `String.take` yields at most `n` characters. -/
theorem string_length_take_le (s : String) (n : Nat) : (s.take n).length ≤ n := by
  rw [String.take_eq]
  exact List.length_take_le n s.data

/-- C10: whenever `test_database` reports an exception in its `database`
field, the embedded exception text is the message truncated to its first
50 characters, hence of length at most 50. -/
theorem test_database_error_text_truncated (env : Env) (e : String)
    (h : env.dbImport = DbImport.raised e ∨
         ∃ db, env.dbImport = DbImport.ok (some db) ∧
               db.list_collection_names = Except.error e) :
    ((test_database env).database = "❌ Error: " ++ e.take 50 ∨
     (test_database env).database = "⚠️  Connected but Error: " ++ e.take 50) ∧
    (e.take 50).length ≤ 50 := by
  refine ⟨?_, string_length_take_le e 50⟩
  obtain ⟨imp, u, n⟩ := env
  cases h with
  | inl h1 =>
    left
    have : imp = DbImport.raised e := h1
    subst this
    rfl
  | inr h2 =>
    obtain ⟨db, hdb, hlcn⟩ := h2
    right
    have : imp = DbImport.ok (some db) := hdb
    subst this
    obtain ⟨hn, nm, lcn⟩ := db
    have : lcn = Except.error e := hlcn
    subst this
    rfl

/-- A 60-character exception message. -/
def longMsg : String := "aaaaaaaaaaaaaaaaaaaaaaaaaaaaaaaaaaaaaaaaaaaaaaaaaaaaaaaaaaaa"

/-- An environment where importing the database module raises an exception
carrying `longMsg`. -/
def envRaised : Env :=
  { dbImport := DbImport.raised longMsg, databaseUrl := none, databaseName := none }

/-- Witness for C10 at a concrete environment whose import raises an
exception with a 60-character message. -/
theorem test_database_error_text_truncated_witness :
    ((test_database envRaised).database = "❌ Error: " ++ longMsg.take 50 ∨
     (test_database envRaised).database =
       "⚠️  Connected but Error: " ++ longMsg.take 50) ∧
    (longMsg.take 50).length ≤ 50 :=
  test_database_error_text_truncated envRaised longMsg (Or.inl rfl)

end PastorateHub
